import Mathlib

/-!
Verification of the poker-solver core (hand evaluator, game-tree builder,
mmap arena, CFR engine) against its specification.

The C++ sources are shallowly embedded:
* machine integers become `Nat`/`Int` (all values stay far below 2^32, and
  `make_hand_rank` packs disjoint bit fields, so no wrap-around occurs);
* `float` quantities (pots, stacks, regrets) become `ℚ`; the discount factors
  computed with `std::pow(float, float)` become `Real.rpow` over `ℝ`;
* fallible operations return `Option`;
* the mmap-backed buffers become a structure with explicit backing store,
  logical length (`count`) and capacity (`max_elements`).
-/

namespace PokerSpec

/-! ## types.h : cards and hand ranks -/

/-- `card = rank * 4 + suit` (types.h `make_card`). -/
def make_card (rank suit : ℕ) : ℕ := rank * 4 + suit

/-- types.h `card_rank`. -/
def card_rank (card : ℕ) : ℕ := card / 4

/-- types.h `card_suit`. -/
def card_suit (card : ℕ) : ℕ := card % 4

def RANK_HIGH_CARD : ℕ := 1
def RANK_ONE_PAIR : ℕ := 2
def RANK_TWO_PAIR : ℕ := 3
def RANK_THREE_OF_A_KIND : ℕ := 4
def RANK_STRAIGHT : ℕ := 5
def RANK_FLUSH : ℕ := 6
def RANK_FULL_HOUSE : ℕ := 7
def RANK_FOUR_OF_A_KIND : ℕ := 8
def RANK_STRAIGHT_FLUSH : ℕ := 9

/-- types.h `make_hand_rank`: category in bits 28-31, five 4-bit tiebreakers
below.  Tiebreakers are C++ `int`s (they can be the sentinel `-1` on paths the
evaluator never takes with 5 valid cards).  `tb & 0xF` on a two's-complement
`int` equals `tb mod 16` (Euclidean), and the or-ed fields occupy disjoint
nibbles, so the bitwise ors of the source are additions here. -/
def make_hand_rank (rank_type : ℕ) (tb1 tb2 tb3 tb4 tb5 : ℤ) : ℕ :=
  rank_type * 2 ^ 28 + (tb1 % 16).toNat * 2 ^ 20 + (tb2 % 16).toNat * 2 ^ 16 +
    (tb3 % 16).toNat * 2 ^ 12 + (tb4 % 16).toNat * 2 ^ 8 + (tb5 % 16).toNat * 2 ^ 4

/-- types.h `get_rank_type` (`rank >> 28` as division). -/
def get_rank_type (rank : ℕ) : ℕ := rank / 2 ^ 28

/-! ## hand_evaluator.cpp : `evaluate_five_internal` -/

/-- `std::sort(begin, end, greater)`: sort descending. -/
def sort_desc (l : List ℕ) : List ℕ := l.insertionSort (· ≥ ·)

/-- `std::unique` on a sorted range: drop consecutive duplicates. -/
def unique_consecutive : List ℕ → List ℕ
  | [] => []
  | [a] => [a]
  | a :: b :: rest =>
    if a = b then unique_consecutive (b :: rest) else a :: unique_consecutive (b :: rest)

/-- The descending loop `for (int r = 12; r >= 0; r--)`. -/
def ranks_desc : List ℕ := [12, 11, 10, 9, 8, 7, 6, 5, 4, 3, 2, 1, 0]

/-- hand_evaluator.cpp `HandEvaluator::evaluate_five_internal`. -/
def evaluate_five (c0 c1 c2 c3 c4 : ℕ) : ℕ :=
  let ranks0 := [card_rank c0, card_rank c1, card_rank c2, card_rank c3, card_rank c4]
  let suits := [card_suit c0, card_suit c1, card_suit c2, card_suit c3, card_suit c4]
  let ranks := sort_desc ranks0
  let r0 := ranks.getD 0 0
  let r1 := ranks.getD 1 0
  let r2 := ranks.getD 2 0
  let r3 := ranks.getD 3 0
  let r4 := ranks.getD 4 0
  let is_flush := suits.getD 0 0 = suits.getD 1 0 ∧ suits.getD 1 0 = suits.getD 2 0 ∧
    suits.getD 2 0 = suits.getD 3 0 ∧ suits.getD 3 0 = suits.getD 4 0
  let num_unique := (unique_consecutive ranks).length
  -- straight detection (`is_straight`, `straight_high`)
  let straight : Bool × ℕ :=
    if num_unique = 5 then
      if r0 - r4 = 4 then (true, r0)
      else if r0 = 12 ∧ r1 = 3 ∧ r2 = 2 ∧ r3 = 1 ∧ r4 = 0 then (true, 3)
      else (false, 0)
    else (false, 0)
  let is_straight := straight.1
  let straight_high := straight.2
  -- rank-count histogram
  let rank_counts := (List.range 13).map (fun r => ranks.count r)
  -- nonzero counts, sorted descending
  let counts := sort_desc (rank_counts.filter (fun c => 0 < c))
  if is_flush ∧ is_straight then
    make_hand_rank RANK_STRAIGHT_FLUSH straight_high 0 0 0 0
  else if counts.getD 0 0 = 4 then
    let quad_rank := ranks_desc.foldl
      (fun acc r => if rank_counts.getD r 0 = 4 then (r : ℤ) else acc) (-1)
    let kicker := ranks_desc.foldl
      (fun acc r => if rank_counts.getD r 0 = 4 then acc
        else if rank_counts.getD r 0 = 1 then (r : ℤ) else acc) (-1)
    make_hand_rank RANK_FOUR_OF_A_KIND quad_rank kicker 0 0 0
  else if counts.getD 0 0 = 3 ∧ counts.getD 1 0 = 2 then
    let trip_rank := ranks_desc.foldl
      (fun acc r => if rank_counts.getD r 0 = 3 then (r : ℤ) else acc) (-1)
    let pair_rank := ranks_desc.foldl
      (fun acc r => if rank_counts.getD r 0 = 3 then acc
        else if rank_counts.getD r 0 = 2 then (r : ℤ) else acc) (-1)
    make_hand_rank RANK_FULL_HOUSE trip_rank pair_rank 0 0 0
  else if is_flush then
    make_hand_rank RANK_FLUSH r0 r1 r2 r3 r4
  else if is_straight then
    make_hand_rank RANK_STRAIGHT straight_high 0 0 0 0
  else if counts.getD 0 0 = 3 then
    let trip_rank := ranks_desc.foldl
      (fun acc r => if rank_counts.getD r 0 = 3 then (r : ℤ) else acc) (-1)
    let kickers := ranks_desc.filter (fun r => rank_counts.getD r 0 = 1)
    make_hand_rank RANK_THREE_OF_A_KIND trip_rank
      ((kickers.getD 0 0 : ℕ) : ℤ) ((kickers.getD 1 0 : ℕ) : ℤ) 0 0
  else if counts.getD 0 0 = 2 ∧ counts.getD 1 0 = 2 then
    let pairs := ranks_desc.filter (fun r => rank_counts.getD r 0 = 2)
    let kicker := ranks_desc.foldl
      (fun acc r => if rank_counts.getD r 0 = 2 then acc
        else if rank_counts.getD r 0 = 1 then (r : ℤ) else acc) (-1)
    make_hand_rank RANK_TWO_PAIR ((pairs.getD 0 0 : ℕ) : ℤ) ((pairs.getD 1 0 : ℕ) : ℤ) kicker 0 0
  else if counts.getD 0 0 = 2 then
    let pair_rank := ranks_desc.foldl
      (fun acc r => if rank_counts.getD r 0 = 2 then (r : ℤ) else acc) (-1)
    let kickers := ranks_desc.filter (fun r => rank_counts.getD r 0 = 1)
    make_hand_rank RANK_ONE_PAIR pair_rank
      ((kickers.getD 0 0 : ℕ) : ℤ) ((kickers.getD 1 0 : ℕ) : ℤ) ((kickers.getD 2 0 : ℕ) : ℤ) 0
  else
    make_hand_rank RANK_HIGH_CARD r0 r1 r2 r3 r4

/-- `evaluate_five` on a 5-element list (the temporary `CardInt five[5]`). -/
def evaluate_five_list (l : List ℕ) : ℕ :=
  match l with
  | [c0, c1, c2, c3, c4] => evaluate_five c0 c1 c2 c3 c4
  | _ => 0

/-! ## hand_evaluator.cpp : `evaluate_seven` and `evaluate` -/

/-- The index pairs `(i, j)` visited by the double loop
`for i in [0,7) for j in (i,7)` of `evaluate_seven`. -/
def seven_pairs : List (ℕ × ℕ) :=
  (((List.range 7).flatMap (fun i => (List.range 7).map (fun j => (i, j)))).filter
    (fun p => p.1 < p.2))

/-- `for (k = 0; k < 7; k++) if (k != i && k != j) five[idx++] = cards[k]`:
keep the entries of `cards` whose position is neither `i` nor `j`. -/
def remove_two (cards : List ℕ) (i j : ℕ) : List ℕ :=
  ((cards.enum.filter (fun p => p.1 ≠ i ∧ p.1 ≠ j)).map Prod.snd)

/-- hand_evaluator.cpp `HandEvaluator::evaluate_seven`: running maximum
(`if (rank > best) best = rank`, starting from `best = 0`) over the 21 pairs. -/
def evaluate_seven (cards : List ℕ) : ℕ :=
  seven_pairs.foldl
    (fun best p => max best (evaluate_five_list (remove_two cards p.1 p.2))) 0

/-- hand_evaluator.cpp `HandEvaluator::evaluate`: merge hole cards and board,
then dispatch on the total card count. -/
def evaluate (h0 h1 : ℕ) (board : List ℕ) (board_size : ℕ) : ℕ :=
  let all_cards := [h0, h1] ++ board.take (min board_size 5)
  let total := 2 + board_size
  if total < 5 then 0
  else if total = 5 then
    evaluate_five (all_cards.getD 0 0) (all_cards.getD 1 0) (all_cards.getD 2 0)
      (all_cards.getD 3 0) (all_cards.getD 4 0)
  else if total = 6 then
    (List.range 6).foldl
      (fun best skip =>
        max best (evaluate_five_list
          ((all_cards.enum.filter (fun p => p.1 ≠ skip)).map Prod.snd))) 0
  else
    evaluate_seven all_cards

/-! Spec-side definition for C1: the maximum of `evaluate_five` over all
C(7,5) = 21 five-card subsets ("returns the maximum `evaluate_five` over all
C(7,5)=21 subsets"). -/

/-- Maximum of a list of naturals. -/
def list_max (l : List ℕ) : ℕ := l.foldr max 0

/-- Spec reading of `evaluate_seven`: maximum of `evaluate_five` over all
five-card subsets of the seven cards. -/
def evaluate_seven_spec (cards : List ℕ) : ℕ :=
  list_max ((cards.sublistsLen 5).map evaluate_five_list)

/-! ## cfr_types.h : actions, nodes, pools -/

inductive ActionType where
  | FOLD | CHECK | CALL | BET | RAISE | ALLIN
deriving DecidableEq, Repr

/-- cfr_types.h `Action` (`size` is the C++ `float`, embedded as `ℚ`). -/
structure Action where
  type : ActionType
  size : ℚ
deriving DecidableEq, Repr

inductive NodeType where
  | PLAYER | CHANCE | TERMINAL
deriving DecidableEq, Repr

inductive Street where
  | FLOP | TURN | RIVER
deriving DecidableEq, Repr

/-- cfr_types.h `CppNode` (flat POD node; `stacks[2]` split into two fields). -/
structure CppNode where
  node_id : ℤ
  bucket_id : ℤ
  type : NodeType
  player : ℤ
  street : Street
  pot : ℚ
  stacks0 : ℚ
  stacks1 : ℚ
  to_call : ℚ
  action_start : ℕ
  action_count : ℕ
  child_start : ℕ
  chance_card_start : ℕ
  chance_count : ℕ
  chance_child_start : ℕ
  board : List ℕ
  board_len : ℕ
deriving DecidableEq, Repr

instance : Inhabited CppNode :=
  ⟨⟨0, 0, NodeType.PLAYER, 0, Street.FLOP, 0, 0, 0, 0, 0, 0, 0, 0, 0, 0, [], 0⟩⟩

def CppNode.is_terminal (n : CppNode) : Bool := n.type = NodeType.TERMINAL
def CppNode.is_chance (n : CppNode) : Bool := n.type = NodeType.CHANCE

/-- `CppNode.stacks[p]`. -/
def CppNode.stack (n : CppNode) (player : ℤ) : ℚ :=
  if player = 0 then n.stacks0 else n.stacks1

/-- game_tree_builder.h `TreeDataPool`: the four append-only arenas (their
mmap-backed storage is modelled by plain lists; the capacity/overflow behaviour
of the underlying buffer is modelled separately by `MmapBuffer`). -/
structure TreeDataPool where
  nodes : List CppNode
  actions : List Action
  child_ids : List ℤ
  chance_cards : List ℕ
deriving DecidableEq, Repr

/-- cfr_types.h `Combo`. -/
structure Combo where
  cards0 : ℕ
  cards1 : ℕ
  weight : ℚ
  hand_str : String
deriving DecidableEq, Repr

instance : Inhabited Combo := ⟨⟨0, 0, 0, ""⟩⟩

/-- cfr_types.h `NodeRegrets`: per-combo cumulative regret and cumulative
strategy vectors (the `unordered_map<int, vector<float>>`s become association
lists).  Polymorphic in the scalar so that the ℚ-valued engine state and the
ℝ-valued discount analysis share one definition. -/
structure NodeRegrets (α : Type) where
  regrets : List (ℕ × List α)
  cumulative_strategy : List (ℕ × List α)
deriving DecidableEq, Repr

instance {α : Type} : Inhabited (NodeRegrets α) := ⟨⟨[], []⟩⟩

/-! ## mmap_buffer.h : `MmapBuffer<T>` -/

/-- mmap_buffer.h `MmapBuffer<T>`: backing store (the mmapped file region,
`max_elements` slots, zero-filled at construction), logical length `count_`,
and capacity `max_elements_`. -/
structure MmapBuffer (T : Type) where
  data : List T
  count : ℕ
  max_elements : ℕ
deriving DecidableEq, Repr

/-- mmap_buffer.h non-const `T& operator[](size_t)`.  Out of capacity it
prints a FATAL line to stderr and returns `data_[0]` (no abort); in capacity
it bumps `count_` to `index + 1` when the index is past the logical end, and
returns the stored element.  The returned pair is (value read, buffer after
the access). -/
def MmapBuffer.index_access {T : Type} [Inhabited T] (b : MmapBuffer T) (index : ℕ) :
    T × MmapBuffer T :=
  if b.max_elements ≤ index then
    (b.data.getD 0 default, b)
  else
    let b' := if b.count ≤ index then { b with count := index + 1 } else b
    (b.data.getD index default, b')

/-- mmap_buffer.h const `const T& operator[](size_t) const`: same bounds
behaviour, no `count_` update. -/
def MmapBuffer.index_read {T : Type} [Inhabited T] (b : MmapBuffer T) (index : ℕ) : T :=
  if b.max_elements ≤ index then b.data.getD 0 default
  else b.data.getD index default

/-- mmap_buffer.h `push_back`: throws "MmapBuffer overflow" at capacity
(`none`), else stores at `count_` and increments it. -/
def MmapBuffer.push_back {T : Type} (b : MmapBuffer T) (val : T) : Option (MmapBuffer T) :=
  if b.max_elements ≤ b.count then none
  else some { b with data := b.data.set b.count val, count := b.count + 1 }

/-! ## game_tree_builder.cpp -/

/-- game_tree_builder.h `BettingConfig`. -/
structure BettingConfig where
  initial_pot : ℚ
  oop_stack : ℚ
  ip_stack : ℚ
  max_raises : ℕ
  flop_bet_sizes : List ℚ
  flop_raise_sizes : List ℚ
  turn_bet_sizes : List ℚ
  turn_raise_sizes : List ℚ
  river_bet_sizes : List ℚ
  river_raise_sizes : List ℚ
deriving DecidableEq, Repr

/-- The builder state threaded through `build_recursive`: the arena pool and
the transposition table. -/
structure BuilderState where
  pool : TreeDataPool
  transposition_table : List (String × ℕ)
deriving DecidableEq, Repr

/-- game_tree_builder.cpp `GameTreeBuilder::write_node_to_pool`: append the
actions and child ids, then append the node (with `to_call` clamped via
`std::max(0.0f, to_call)`), and record the key in the transposition table.
Returns the new state and the node id. -/
def write_node_to_pool (st : BuilderState) (key : String) (player : ℤ) (street : Street)
    (pot oop_stack ip_stack to_call : ℚ) (actions : List Action) (child_ids : List ℤ)
    (board : List ℕ) : BuilderState × ℕ :=
  let current_id := st.pool.nodes.length
  let node : CppNode :=
    { node_id := (current_id : ℤ)
      player := player
      street := street
      pot := pot
      stacks0 := oop_stack
      stacks1 := ip_stack
      to_call := max 0 to_call
      type := if actions.isEmpty then NodeType.TERMINAL else NodeType.PLAYER
      board_len := board.length
      board := board
      bucket_id := -1
      action_start := st.pool.actions.length
      action_count := actions.length
      child_start := st.pool.child_ids.length
      chance_count := 0
      chance_card_start := 0
      chance_child_start := 0 }
  let pool' :=
    { st.pool with
      actions := st.pool.actions ++ actions
      child_ids := st.pool.child_ids ++ child_ids
      nodes := st.pool.nodes ++ [node] }
  ({ pool := pool', transposition_table := st.transposition_table ++ [(key, current_id)] },
    current_id)

/-- game_tree_builder.cpp `GameTreeBuilder::add_chance_node_recursive`, final
phase: after the child subtrees have been built (their cards and ids are the
`chance_cards` / `chance_child_ids` arguments here), the chance node itself is
written.  The C++ declares `CppNode c_node;` and never assigns `to_call` or
`bucket_id`; that indeterminate stack memory is the `garbage` argument — the
fields the source assigns are overwritten, the rest keep garbage values. -/
def write_chance_node (st : BuilderState) (garbage : CppNode) (oop_s ip_s pot : ℚ)
    (next_street : Street) (board : List ℕ) (chance_cards : List ℕ)
    (chance_child_ids : List ℤ) : BuilderState × ℕ :=
  let chance_id := st.pool.nodes.length
  let c_node : CppNode :=
    { garbage with
      node_id := (chance_id : ℤ)
      type := NodeType.CHANCE
      pot := pot
      stacks0 := oop_s
      stacks1 := ip_s
      street := next_street
      board_len := board.length
      board := board
      chance_card_start := st.pool.chance_cards.length
      chance_count := chance_cards.length
      chance_child_start := st.pool.child_ids.length
      action_count := 0
      action_start := 0
      child_start := 0 }
  let pool' :=
    { st.pool with
      chance_cards := st.pool.chance_cards ++ chance_cards
      child_ids := st.pool.child_ids ++ chance_child_ids
      nodes := st.pool.nodes ++ [c_node] }
  ({ st with pool := pool' }, chance_id)

/-- The per-street size table selection of `build_recursive` step 3. -/
def street_sizes (cfg : BettingConfig) (street : Street) (is_bet : Bool) : List ℚ :=
  if is_bet then
    match street with
    | Street.FLOP => cfg.flop_bet_sizes
    | Street.TURN => cfg.turn_bet_sizes
    | Street.RIVER => cfg.river_bet_sizes
  else
    match street with
    | Street.FLOP => cfg.flop_raise_sizes
    | Street.TURN => cfg.turn_raise_sizes
    | Street.RIVER => cfg.river_raise_sizes

/-- game_tree_builder.cpp `GameTreeBuilder::build_recursive`, restricted to the
actions it pushes into `local_actions` at the state it was entered with.  The
pushed actions depend only on the entry state (the recursive calls only
produce the child ids), so this is a pure projection of the recursion step:
the all-in auto-close branch, then Fold, Check/Call, the configured
bet/raise sizes, and All-in. -/
def enumerate_actions (cfg : BettingConfig) (oop_stack ip_stack pot : ℚ) (player : ℕ)
    (street : Street) (raise_count : ℕ) (current_bet actor_invested : ℚ)
    (is_all_in : Bool) : List Action :=
  let to_call := current_bet - actor_invested
  if is_all_in = true ∧ to_call < 0.01 then
    -- river: showdown terminal with no actions; flop/turn: single CALL placeholder
    if street = Street.RIVER then [] else [⟨ActionType.CALL, 0⟩]
  else
    let actor_stack := if player = 0 then oop_stack else ip_stack
    let fold_actions : List Action :=
      if to_call > 0.1 then [⟨ActionType.FOLD, 0⟩] else []
    let check_call : List Action :=
      if to_call < 0.1 then [⟨ActionType.CHECK, 0⟩]
      else [⟨ActionType.CALL, min actor_stack to_call⟩]
    let bet_raise : List Action :=
      if raise_count < cfg.max_raises ∧ actor_stack > to_call + 0.01 then
        let is_bet := to_call < 0.01
        let sizes := street_sizes cfg street (decide is_bet)
        let bets := sizes.filterMap (fun s =>
          let bet_val0 : ℚ := if is_bet then (⌊pot * s⌋ : ℤ) else (⌊(pot + to_call) * s⌋ : ℤ)
          let bet_val := if bet_val0 < 1 then 1 else bet_val0
          let invest := min actor_stack (to_call + bet_val)
          if invest ≤ to_call + 0.01 then none
          else some ⟨if is_bet then ActionType.BET else ActionType.RAISE, invest⟩)
        let allin : List Action :=
          if actor_stack > to_call + 1 then [⟨ActionType.ALLIN, actor_stack⟩] else []
        bets ++ allin
      else []
    fold_actions ++ check_call ++ bet_raise

/-! ## cfr_engine.cpp : `CppCFREngine` -/

/-- The engine state the claims touch: the tree pool, the root id, the two
ranges and the regret store (`node_regrets_`).  A not-yet-built pool
(`pool_ == nullptr`) is modelled as the empty pool. -/
structure CppCFREngine where
  pool : TreeDataPool
  root_id : ℕ
  oop_combos : List Combo
  ip_combos : List Combo
  node_regrets : List (NodeRegrets ℚ)
deriving DecidableEq, Repr

/-- cfr_engine.cpp `cards_conflict(HoleCards, HoleCards)`. -/
def cards_conflict (a0 a1 b0 b1 : ℕ) : Bool :=
  a0 = b0 ∨ a0 = b1 ∨ a1 = b0 ∨ a1 = b1

/-- cfr_engine.cpp `CppCFREngine::terminal_ev`.  The pre-river branch calls
`EquityCalculator::calculate_equity` with 50 Monte-Carlo samples; that
RNG-driven estimate is abstracted as the `mc_equity` oracle argument (the
claims only concern the exact `board_len == 5` branch). -/
def terminal_ev (eng : CppCFREngine) (mc_equity : Combo → Combo → List ℕ → ℕ → ℚ)
    (node : CppNode) (player : ℤ) (my_idx opp_idx : ℕ) : ℚ :=
  let initial_stack := (eng.pool.nodes.getD eng.root_id default).stack player
  if node.pot < 0.01 then node.stack player - initial_stack
  else
    let my_c := if player = 0 then eng.oop_combos.getD my_idx default
      else eng.ip_combos.getD my_idx default
    let opp_c := if player = 0 then eng.ip_combos.getD opp_idx default
      else eng.oop_combos.getD opp_idx default
    let b_arr := node.board.take (min node.board_len 5)
    let equity : ℚ :=
      if node.board_len = 5 then
        let r1 := evaluate my_c.cards0 my_c.cards1 b_arr 5
        let r2 := evaluate opp_c.cards0 opp_c.cards1 b_arr 5
        if r1 > r2 then 1 else if r1 < r2 then 0 else 0.5
      else mc_equity my_c opp_c b_arr node.board_len
    equity * node.pot - (initial_stack - node.stack player)

/-- cfr_engine.cpp `CppCFREngine::get_current_strategy` (the `player` and
`iteration` arguments are unused in the source body and kept for the
signature). -/
def get_current_strategy (eng : CppCFREngine) (node_id : ℕ) (player : ℤ)
    (combo_idx : ℕ) (iteration : ℕ) : List ℚ :=
  let node := eng.pool.nodes.getD node_id default
  let base : List ℚ :=
    if node_id < eng.node_regrets.length then
      match (eng.node_regrets.getD node_id default).regrets.lookup combo_idx with
      | some r => (List.range node.action_count).map (fun a => max 0 (r.getD a 0))
      | none => List.replicate node.action_count 0
    else List.replicate node.action_count 0
  let sum := base.foldl (· + ·) 0
  if sum > 0 then base.map (fun s => s / sum)
  else List.replicate node.action_count (1 / (node.action_count : ℚ))

/-- cfr_engine.cpp `CppCFREngine::apply_discount`.  `d` and `dc` are the
`std::pow`-based factors; the power function is a parameter so that the
ℝ-instantiation can use `Real.rpow` for the float `pow`.  Negative regrets are
halved, other regrets scaled by `d`, cumulative strategies by `dc`. -/
def apply_discount {α : Type} [LinearOrderedField α] (powf : α → α → α) (alpha gamma : α)
    (iteration : ℕ) (node_regrets : List (NodeRegrets α)) : List (NodeRegrets α) :=
  let d := powf (iteration : α) alpha / (powf (iteration : α) alpha + 1)
  let dc := powf (iteration : α) gamma / (powf (iteration : α) gamma + 1)
  node_regrets.map (fun nr =>
    { regrets := nr.regrets.map (fun p =>
        (p.1, p.2.map (fun val => if val < 0 then val * 0.5 else val * d)))
      cumulative_strategy := nr.cumulative_strategy.map (fun p =>
        (p.1, p.2.map (fun val => val * dc))) })

/-- cfr_engine.cpp `CppCFREngine::solve`, loop skeleton over the regret store:
`for (t = 1; t <= iterations; t++) { run_iteration(t); if (t % 2 == 0)
apply_discount(t); }`.  The sampled traversals of `run_iteration` are
abstracted as a state transformer argument; the stop flag and the progress
callback do not touch the regret store. -/
def solve_model {α : Type} [LinearOrderedField α] (powf : α → α → α) (alpha gamma : α)
    (run_iteration : ℕ → List (NodeRegrets α) → List (NodeRegrets α)) (iterations : ℕ)
    (init : List (NodeRegrets α)) : List (NodeRegrets α) :=
  (List.range iterations).foldl
    (fun st i =>
      let t := i + 1
      let st1 := run_iteration t st
      if t % 2 = 0 then apply_discount powf alpha gamma t st1 else st1)
    init

/-- The iterations at which the `solve` loop calls `apply_discount`. -/
def solve_discount_schedule (iterations : ℕ) : List ℕ :=
  (List.range iterations).foldl
    (fun acc i =>
      let t := i + 1
      if t % 2 = 0 then acc ++ [t] else acc)
    []

/-! ## cfr_engine.cpp : `get_node_data` -/

/-- The python objects `get_node_data` casts into its result map. -/
inductive PyObj where
  | int : ℤ → PyObj
  | rat : ℚ → PyObj
  | str : String → PyObj
  | ratList : List ℚ → PyObj
  | intList : List ℤ → PyObj
  | strList : List String → PyObj
  | pairList : List (ℤ × ℤ) → PyObj
deriving DecidableEq, Repr

/-- `(int)size` of a C++ float: truncation toward zero. -/
def rat_trunc (q : ℚ) : ℤ := q.num / (q.den : ℤ)

/-- cfr_engine.cpp `Action::to_string`. -/
def Action.to_string (a : Action) : String :=
  match a.type with
  | ActionType.FOLD => "fold"
  | ActionType.CHECK => "check"
  | ActionType.CALL => "call (" ++ toString (rat_trunc a.size) ++ ")"
  | ActionType.BET => "bet " ++ toString (rat_trunc a.size)
  | ActionType.RAISE => "raise " ++ toString (rat_trunc a.size)
  | ActionType.ALLIN => "allin (" ++ toString (rat_trunc a.size) ++ ")"

/-- cfr_engine.cpp `CppCFREngine::get_node_data`: on an invalid id (no pool,
negative id, or id past the node count) it logs to stderr and returns the
empty map; otherwise it fills the map in source order.  The function is
`const` and touches no engine state. -/
def get_node_data (eng : CppCFREngine) (node_id : ℤ) : List (String × PyObj) :=
  if node_id < 0 ∨ (eng.pool.nodes.length : ℤ) ≤ node_id then []
  else
    let node := eng.pool.nodes.getD node_id.toNat default
    let type_str :=
      if node.is_terminal then "terminal" else if node.is_chance then "chance" else "player"
    let action_strs := (List.range node.action_count).filterMap (fun i =>
      if node.action_start + i < eng.pool.actions.length then
        some ((eng.pool.actions.getD (node.action_start + i) ⟨ActionType.FOLD, 0⟩).to_string)
      else none)
    let child_ids := (List.range node.action_count).filterMap (fun i =>
      if node.child_start + i < eng.pool.child_ids.length then
        some (eng.pool.child_ids.getD (node.child_start + i) 0)
      else none)
    let board_pairs := (List.range node.board_len).map (fun i =>
      ((card_rank (node.board.getD i 0) : ℤ), (card_suit (node.board.getD i 0) : ℤ)))
    let base :=
      [("id", PyObj.int node.node_id),
       ("player", PyObj.int node.player),
       ("street", PyObj.int (match node.street with
          | Street.FLOP => 0 | Street.TURN => 1 | Street.RIVER => 2)),
       ("pot", PyObj.rat node.pot),
       ("stacks", PyObj.ratList [node.stacks0, node.stacks1]),
       ("to_call", PyObj.rat node.to_call),
       ("type", PyObj.str type_str),
       ("actions", PyObj.strList action_strs),
       ("child_ids", PyObj.intList child_ids),
       ("board", PyObj.pairList board_pairs)]
    if node.is_chance then
      let chance_cards := (List.range node.chance_count).filterMap (fun i =>
        if node.chance_card_start + i < eng.pool.chance_cards.length then
          let c := eng.pool.chance_cards.getD (node.chance_card_start + i) 0
          some ((card_rank c : ℤ), (card_suit c : ℤ))
        else none)
      let chance_child_ids := (List.range node.chance_count).filterMap (fun i =>
        if node.chance_child_start + i < eng.pool.child_ids.length then
          some (eng.pool.child_ids.getD (node.chance_child_start + i) 0)
        else none)
      base ++ [("chance_cards", PyObj.pairList chance_cards),
               ("chance_child_ids", PyObj.intList chance_child_ids)]
    else base

/-! ## Concrete fixtures used by individual claims -/

/-- A river showdown terminal reached by checking down: pot and stacks equal
the root's (spec test configuration `pot=100, stacks=(100,100)`), board
2c 3d 5h 9s Jc. -/
def riverNode : CppNode :=
  { (default : CppNode) with
    type := NodeType.TERMINAL
    street := Street.RIVER
    pot := 100
    stacks0 := 100
    stacks1 := 100
    board := [0, 5, 14, 31, 38]
    board_len := 5 }

/-- Engine fixture: the root is `riverNode` itself (both players checked down,
nothing invested after the root), OOP holds AcAd, IP holds KcKd. -/
def riverEngine : CppCFREngine :=
  { pool := { nodes := [riverNode], actions := [], child_ids := [], chance_cards := [] }
    root_id := 0
    oop_combos := [⟨48, 49, 1, "AA"⟩]
    ip_combos := [⟨44, 45, 1, "KK"⟩]
    node_regrets := [] }

/-- A constant Monte-Carlo equity oracle (never consulted on river nodes). -/
def mc_equity_const : Combo → Combo → List ℕ → ℕ → ℚ := fun _ _ _ _ => 0.5

/-- Engine fixture for regret matching: one 3-action player node whose combo 0
has cumulative regrets (3, −1, 2). -/
def regretEngine : CppCFREngine :=
  { pool :=
      { nodes := [{ (default : CppNode) with type := NodeType.PLAYER, action_count := 3 }]
        actions := [], child_ids := [], chance_cards := [] }
    root_id := 0
    oop_combos := []
    ip_combos := []
    node_regrets := [⟨[(0, [3, -1, 2])], [(0, [0, 0, 0])]⟩] }

/-- Betting configuration with `max_raises = 0` (raises exhausted at entry). -/
def cfgNoRaises : BettingConfig :=
  ⟨10, 100, 100, 0, [1/2], [1], [1/2], [1], [1/2], [1]⟩

/-- Buffer fixture: capacity 4, logical end 2, backing store 10 20 30 40. -/
def bufFixture : MmapBuffer ℕ := ⟨[10, 20, 30, 40], 2, 4⟩

/-! # Helper lemmas -/

lemma foldr_max_pull (a : ℕ) (l : List ℕ) (init : ℕ) :
    l.foldr max (max a init) = max a (l.foldr max init) := by
  induction l generalizing init with
  | nil => rfl
  | cons x xs ih => rw [List.foldr_cons, ih, List.foldr_cons, max_left_comm]

lemma foldl_max_eq_foldr (l : List ℕ) (init : ℕ) :
    l.foldl max init = l.foldr max init := by
  induction l generalizing init with
  | nil => rfl
  | cons x xs ih =>
    rw [List.foldl_cons, ih, List.foldr_cons, max_comm init x]
    exact foldr_max_pull x xs init

set_option maxHeartbeats 2000000 in
lemma wheel_eval (s0 s1 s2 s3 s4 : Fin 4) (hs : ¬(s0 = s1 ∧ s1 = s2 ∧ s2 = s3 ∧ s3 = s4)) :
    evaluate_five (make_card 12 s0) (make_card 0 s1) (make_card 1 s2) (make_card 2 s3)
      (make_card 3 s4) = make_hand_rank RANK_STRAIGHT 3 0 0 0 0 := by
  revert s0 s1 s2 s3 s4
  decide

set_option maxHeartbeats 2000000 in
lemma two_to_six_above_wheel (t0 t1 t2 t3 t4 : Fin 4) :
    make_hand_rank RANK_STRAIGHT 3 0 0 0 0 <
      evaluate_five (make_card 0 t0) (make_card 1 t1) (make_card 2 t2) (make_card 3 t3)
        (make_card 4 t4) := by
  revert t0 t1 t2 t3 t4
  decide

/-! # Claims -/

/-- C1.  For every array of 7 distinct cards, `evaluate_seven` returns exactly
the maximum of `evaluate_five` over all C(7,5) = 21 five-card subsets of those
7 cards. -/
theorem evaluate_seven_max_over_subsets (cards : List ℕ) (h7 : cards.length = 7)
    (hnd : cards.Nodup) : evaluate_seven cards = evaluate_seven_spec cards := by
  match cards, h7 with
  | [a, b, c, d, e, f, g], _ =>
    have h1 : evaluate_seven [a, b, c, d, e, f, g] =
        (seven_pairs.map
          (fun p => evaluate_five_list (remove_two [a, b, c, d, e, f, g] p.1 p.2))).foldl
          max 0 := by
      rw [List.foldl_map]; rfl
    rw [h1, foldl_max_eq_foldr]
    rfl

/-- Witness for C1 at the seven concrete cards 2c 3d 5h 9s Jc Ac Ad. -/
theorem evaluate_seven_max_over_subsets_witness :
    ([0, 5, 14, 31, 38, 48, 49] : List ℕ).length = 7 ∧
    ([0, 5, 14, 31, 38, 48, 49] : List ℕ).Nodup ∧
    evaluate_seven [0, 5, 14, 31, 38, 48, 49] =
      evaluate_seven_spec [0, 5, 14, 31, 38, 48, 49] :=
  ⟨by decide, by decide,
    evaluate_seven_max_over_subsets [0, 5, 14, 31, 38, 48, 49] (by decide) (by decide)⟩

/-- C7.  `evaluate_five` on the wheel A-2-3-4-5 (suits not all equal)
classifies it as a straight (category `RANK_STRAIGHT`) whose high card is the
5 (tiebreaker rank index 3), and this rank is strictly below the rank of the
2-3-4-5-6 straight (any suits). -/
theorem wheel_straight_ranked_five_high (s0 s1 s2 s3 s4 t0 t1 t2 t3 t4 : Fin 4)
    (hs : ¬(s0 = s1 ∧ s1 = s2 ∧ s2 = s3 ∧ s3 = s4)) :
    evaluate_five (make_card 12 s0) (make_card 0 s1) (make_card 1 s2) (make_card 2 s3)
        (make_card 3 s4) = make_hand_rank RANK_STRAIGHT 3 0 0 0 0 ∧
    get_rank_type (evaluate_five (make_card 12 s0) (make_card 0 s1) (make_card 1 s2)
        (make_card 2 s3) (make_card 3 s4)) = RANK_STRAIGHT ∧
    evaluate_five (make_card 12 s0) (make_card 0 s1) (make_card 1 s2) (make_card 2 s3)
        (make_card 3 s4) <
      evaluate_five (make_card 0 t0) (make_card 1 t1) (make_card 2 t2) (make_card 3 t3)
        (make_card 4 t4) := by
  have h := wheel_eval s0 s1 s2 s3 s4 hs
  refine ⟨h, ?_, ?_⟩
  · rw [h]; decide
  · rw [h]; exact two_to_six_above_wheel t0 t1 t2 t3 t4

/-- Witness for C7: wheel Ad 2c 3c 4c 5c against 2c 3c 4c 5c 6c. -/
theorem wheel_straight_ranked_five_high_witness :
    (¬((1 : Fin 4) = 0 ∧ (0 : Fin 4) = 0 ∧ (0 : Fin 4) = 0 ∧ (0 : Fin 4) = 0)) ∧
    (evaluate_five (make_card 12 1) (make_card 0 0) (make_card 1 0) (make_card 2 0)
        (make_card 3 0) = make_hand_rank RANK_STRAIGHT 3 0 0 0 0 ∧
     get_rank_type (evaluate_five (make_card 12 1) (make_card 0 0) (make_card 1 0)
        (make_card 2 0) (make_card 3 0)) = RANK_STRAIGHT ∧
     evaluate_five (make_card 12 1) (make_card 0 0) (make_card 1 0) (make_card 2 0)
        (make_card 3 0) <
       evaluate_five (make_card 0 0) (make_card 1 0) (make_card 2 0) (make_card 3 0)
        (make_card 4 0)) :=
  ⟨by decide, wheel_straight_ranked_five_high 1 0 0 0 0 0 0 0 0 0 (by decide)⟩

/-- C9.  When the combined hole cards and board comprise fewer than 5 cards
(`board_size < 3`), `HandEvaluator::evaluate` returns the `HandRank` 0,
which is below every legal hand rank (category at least `RANK_HIGH_CARD`). -/
theorem evaluate_short_board_returns_zero (h0 h1 : ℕ) (board : List ℕ) (board_size : ℕ)
    (hb : board_size < 3) :
    evaluate h0 h1 board board_size = 0 ∧
    ∀ rank_type : ℕ, 1 ≤ rank_type → ∀ tb1 tb2 tb3 tb4 tb5 : ℤ,
      0 < make_hand_rank rank_type tb1 tb2 tb3 tb4 tb5 := by
  constructor
  · simp only [evaluate]
    rw [if_pos (by omega)]
  · intro rank_type hrt tb1 tb2 tb3 tb4 tb5
    simp only [make_hand_rank]
    have h28 : 0 < rank_type * 2 ^ 28 := Nat.mul_pos hrt (by decide)
    omega

/-- Witness for C9: board of two cards. -/
theorem evaluate_short_board_returns_zero_witness :
    2 < 3 ∧ evaluate 0 1 [4, 8] 2 = 0 :=
  ⟨by decide, (evaluate_short_board_returns_zero 0 1 [4, 8] 2 (by decide)).1⟩

/-- C4 counterexample: on `bufFixture` (logical end 2, capacity 4), indexed
access at index 2 — beyond the logical end — silently yields the stored value
30 (and the mutable accessor quietly extends the logical end to 3); at index 5
— beyond capacity — it yields element 0 instead of aborting.  So out-of-bounds
indexed access is not a fatal error. -/
theorem mmap_oob_silent_value_cex :
    bufFixture.count ≤ 2 ∧
    bufFixture.index_read 2 = 30 ∧
    (bufFixture.index_access 2).1 = 30 ∧
    (bufFixture.index_access 2).2.count = 3 ∧
    bufFixture.index_read 5 = 10 := by decide

/-- C4 (amended).  Indexed access beyond the logical end never aborts: within
capacity it yields the backing-store value (the mutable accessor silently
extends the logical end to `index + 1`); at or beyond capacity it logs and
yields element 0.  Only `push_back` at capacity raises the fatal
"MmapBuffer overflow". -/
theorem mmap_index_oob_behaviour (T : Type) [Inhabited T] (b : MmapBuffer T) (i : ℕ) (v : T)
    (h : b.count ≤ i) :
    b.index_read i =
      (if b.max_elements ≤ i then b.data.getD 0 default else b.data.getD i default) ∧
    (i < b.max_elements →
      (b.index_access i).1 = b.data.getD i default ∧ (b.index_access i).2.count = i + 1) ∧
    (b.push_back v = none ↔ b.max_elements ≤ b.count) := by
  refine ⟨rfl, ?_, ?_⟩
  · intro hi
    simp [MmapBuffer.index_access, if_neg (Nat.not_le.mpr hi), if_pos h]
  · simp only [MmapBuffer.push_back]
    constructor
    · intro hp
      by_contra hc
      simp [if_neg hc] at hp
    · intro hc
      rw [if_pos hc]

/-- Witness for C4 (amended) on `bufFixture` at index 2. -/
theorem mmap_index_oob_behaviour_witness :
    bufFixture.count ≤ 2 ∧
    (bufFixture.index_read 2 =
      (if bufFixture.max_elements ≤ 2 then bufFixture.data.getD 0 default
       else bufFixture.data.getD 2 default) ∧
    (2 < bufFixture.max_elements →
      (bufFixture.index_access 2).1 = bufFixture.data.getD 2 default ∧
      (bufFixture.index_access 2).2.count = 3) ∧
    (bufFixture.push_back 7 = none ↔ bufFixture.max_elements ≤ bufFixture.count)) :=
  ⟨by decide, mmap_index_oob_behaviour ℕ bufFixture 2 7 (by decide)⟩

/-- C8 counterexample: a chance node written by the builder keeps the
uninitialized `to_call` stack memory; with garbage value −5 the stored
`to_call` is negative. -/
theorem chance_node_to_call_cex :
    (((write_chance_node ⟨⟨[], [], [], []⟩, []⟩ { (default : CppNode) with to_call := -5 }
        100 100 50 Street.TURN [0, 1, 2] [4] [1]).1.pool.nodes.getD 0 default).to_call : ℚ)
      < 0 := by
  show (-5 : ℚ) < 0
  decide

/-- C8 (amended).  Every node written through `write_node_to_pool` (player and
terminal nodes) stores `to_call = max(0, to_call) ≥ 0`; a chance node written
by `add_chance_node_recursive` leaves `to_call` at whatever the uninitialized
memory held, so no sign guarantee exists for chance nodes. -/
theorem builder_to_call_clamped (st st2 : BuilderState) (key : String) (player : ℤ)
    (street next_street : Street) (pot oop_stack ip_stack to_call oop2 ip2 pot2 : ℚ)
    (actions : List Action) (child_ids chance_child_ids : List ℤ)
    (board board2 chance_cards : List ℕ) (garbage : CppNode) :
    (∃ n : CppNode,
      (write_node_to_pool st key player street pot oop_stack ip_stack to_call actions
          child_ids board).1.pool.nodes = st.pool.nodes ++ [n] ∧
      n.to_call = max 0 to_call ∧ 0 ≤ n.to_call) ∧
    (∃ c : CppNode,
      (write_chance_node st2 garbage oop2 ip2 pot2 next_street board2 chance_cards
          chance_child_ids).1.pool.nodes = st2.pool.nodes ++ [c] ∧
      c.to_call = garbage.to_call) :=
  ⟨⟨_, rfl, rfl, le_max_left 0 to_call⟩, ⟨_, rfl, rfl⟩⟩

/-- C10.  For every `node_id` that is negative or at least the pool's node
count, `get_node_data` returns the empty map; it is a pure read (`const` in
the source), so no state is mutated and no fatal error is raised. -/
theorem get_node_data_invalid_id_empty (eng : CppCFREngine) (node_id : ℤ)
    (h : node_id < 0 ∨ (eng.pool.nodes.length : ℤ) ≤ node_id) :
    get_node_data eng node_id = [] := by
  simp only [get_node_data, if_pos h]

/-- Witness for C10 at `node_id = −1` on an empty engine. -/
theorem get_node_data_invalid_id_empty_witness :
    ((-1 : ℤ) < 0 ∨ ((⟨⟨[], [], [], []⟩, 0, [], [], []⟩ :
        CppCFREngine).pool.nodes.length : ℤ) ≤ -1) ∧
    get_node_data ⟨⟨[], [], [], []⟩, 0, [], [], []⟩ (-1) = [] :=
  ⟨Or.inl (by decide),
    get_node_data_invalid_id_empty ⟨⟨[], [], [], []⟩, 0, [], [], []⟩ (-1) (Or.inl (by decide))⟩

lemma solve_discount_schedule_succ (n : ℕ) :
    solve_discount_schedule (n + 1) =
      if (n + 1) % 2 = 0 then solve_discount_schedule n ++ [n + 1]
      else solve_discount_schedule n := by
  simp only [solve_discount_schedule, List.range_succ, List.foldl_append, List.foldl_cons,
    List.foldl_nil]

lemma mem_solve_discount_schedule (n t : ℕ) :
    t ∈ solve_discount_schedule n ↔ 1 ≤ t ∧ t ≤ n ∧ t % 2 = 0 := by
  induction n with
  | zero =>
    simp only [solve_discount_schedule, List.range_zero, List.foldl_nil, List.not_mem_nil,
      false_iff]
    omega
  | succ n ih =>
    rw [solve_discount_schedule_succ]
    by_cases h : (n + 1) % 2 = 0
    · rw [if_pos h]
      simp only [List.mem_append, List.mem_singleton, ih]
      omega
    · rw [if_neg h]
      rw [ih]
      omega

/-- C5.  The solve loop applies DCFR discounting exactly after every 2nd
iteration (the schedule is the even iterations in `[1, n]`; in particular a
2-iteration solve ends with one discount at `t = 2`), and `apply_discount` at
iteration `t` multiplies positive regrets by `tᵅ/(tᵅ+1)` with α = 1.5,
negative regrets by 0.5, and cumulative-strategy entries by `tᵞ/(tᵞ+1)` with
γ = 2; at `t = 2` a positive regret `R` becomes `R·2^1.5/(2^1.5+1)` and a
negative regret `−R` becomes `−R/2`. -/
theorem dcfr_discount_rule (n t : ℕ) (v w S R : ℝ) (hv : 0 < v) (hw : w < 0) (hR : 0 < R)
    (run_iteration : ℕ → List (NodeRegrets ℝ) → List (NodeRegrets ℝ))
    (init : List (NodeRegrets ℝ)) :
    (t ∈ solve_discount_schedule n ↔ 1 ≤ t ∧ t ≤ n ∧ t % 2 = 0) ∧
    solve_model Real.rpow 1.5 2 run_iteration 2 init =
      apply_discount Real.rpow 1.5 2 2 (run_iteration 2 (run_iteration 1 init)) ∧
    apply_discount Real.rpow 1.5 2 t [⟨[(0, [v, w])], [(0, [S])]⟩] =
      [⟨[(0, [v * (Real.rpow t 1.5 / (Real.rpow t 1.5 + 1)), w * 0.5])],
        [(0, [S * (Real.rpow t 2 / (Real.rpow t 2 + 1))])]⟩] ∧
    apply_discount Real.rpow 1.5 2 2 [⟨[(0, [R, -R])], [(0, [S])]⟩] =
      [⟨[(0, [R * (Real.rpow 2 1.5 / (Real.rpow 2 1.5 + 1)), -(R / 2)])],
        [(0, [S * (Real.rpow 2 2 / (Real.rpow 2 2 + 1))])]⟩] := by
  refine ⟨mem_solve_discount_schedule n t, ?_, ?_, ?_⟩
  · rfl
  · simp only [apply_discount, List.map_cons, List.map_nil,
      if_neg (not_lt.mpr hv.le), if_pos hw]
  · have h1 : ¬ (R < 0) := not_lt.mpr hR.le
    have h2 : -R < 0 := neg_lt_zero.mpr hR
    simp only [apply_discount, List.map_cons, List.map_nil, if_neg h1, if_pos h2,
      Nat.cast_ofNat]
    have h3 : -R * (0.5 : ℝ) = -(R / 2) := by ring
    rw [h3]

/-- Witness for C5 at `n = 4`, `t = 2`, `v = 1`, `w = −1`, `S = 1`, `R = 1`,
with the identity iteration transformer. -/
theorem dcfr_discount_rule_witness :
    (0 : ℝ) < 1 ∧ (-1 : ℝ) < 0 ∧
    ((2 ∈ solve_discount_schedule 4 ↔ 1 ≤ 2 ∧ 2 ≤ 4 ∧ 2 % 2 = 0) ∧
    solve_model Real.rpow 1.5 2 (fun _ s => s) 2 [] =
      apply_discount Real.rpow 1.5 2 2 ((fun (_ : ℕ) (s : List (NodeRegrets ℝ)) => s) 2
        ((fun (_ : ℕ) (s : List (NodeRegrets ℝ)) => s) 1 [])) ∧
    apply_discount Real.rpow 1.5 2 2 [⟨[(0, [1, -1])], [(0, [1])]⟩] =
      [⟨[(0, [1 * (Real.rpow 2 1.5 / (Real.rpow 2 1.5 + 1)), -1 * 0.5])],
        [(0, [1 * (Real.rpow 2 2 / (Real.rpow 2 2 + 1))])]⟩] ∧
    apply_discount Real.rpow 1.5 2 2 [⟨[(0, [1, -1])], [(0, [1])]⟩] =
      [⟨[(0, [1 * (Real.rpow 2 1.5 / (Real.rpow 2 1.5 + 1)), -(1 / 2)])],
        [(0, [1 * (Real.rpow 2 2 / (Real.rpow 2 2 + 1))])]⟩]) :=
  ⟨one_pos, neg_one_lt_zero,
    dcfr_discount_rule 4 2 1 (-1) 1 1 one_pos neg_one_lt_zero one_pos (fun _ s => s) []⟩

/-- C6.  The current strategy for a (node, combo) pair with stored regret
vector `r` assigns each action `max(0, r[a])` divided by the sum of the
positive parts when that sum is positive, else the uniform `1/k`; on the
3-action fixture with regrets (3, −1, 2) it is (0.6, 0.0, 0.4). -/
theorem current_strategy_regret_matching (eng : CppCFREngine) (node_id : ℕ) (p : ℤ)
    (combo_idx iter : ℕ) (r : List ℚ)
    (hn : node_id < eng.node_regrets.length)
    (hr : (eng.node_regrets.getD node_id default).regrets.lookup combo_idx = some r) :
    (get_current_strategy eng node_id p combo_idx iter =
      (let k := (eng.pool.nodes.getD node_id default).action_count
       let rplus := (List.range k).map (fun a => max 0 (r.getD a 0))
       let S := rplus.foldl (· + ·) 0
       if 0 < S then rplus.map (fun x => x / S) else List.replicate k (1 / (k : ℚ)))) ∧
    get_current_strategy regretEngine 0 0 0 1 = [0.6, 0, 0.4] := by
  constructor
  · simp only [get_current_strategy, if_pos hn, hr]
  · norm_num [get_current_strategy, regretEngine, List.lookup, max_def, List.range_succ]

/-- Witness for C6 on the (3, −1, 2) fixture. -/
theorem current_strategy_regret_matching_witness :
    0 < regretEngine.node_regrets.length ∧
    (regretEngine.node_regrets.getD 0 default).regrets.lookup 0 = some [3, -1, 2] ∧
    get_current_strategy regretEngine 0 0 0 1 = [0.6, 0, 0.4] :=
  ⟨by decide, rfl,
    (current_strategy_regret_matching regretEngine 0 0 0 1 [3, -1, 2] (by decide) rfl).2⟩

lemma ite_none_some {α : Type} {c : Prop} [Decidable c] {x a : α}
    (h : (if c then none else some x) = some a) : a = x := by
  by_cases hc : c
  · rw [if_pos hc] at h; cases h
  · rw [if_neg hc] at h; exact (Option.some.inj h).symm

/-- C3 counterexample: with `max_raises = 0` the acting player's stack (100)
exceeds `to_call + 1 = 1`, yet the enumerated action list is just a check —
no ALLIN — because the whole bet/raise/all-in block is gated on
`raise_count < max_raises`. -/
theorem allin_threshold_cex :
    (100 : ℚ) > (0 - 0) + 1 ∧
    enumerate_actions cfgNoRaises 100 100 10 0 Street.FLOP 0 0 0 false =
      [⟨ActionType.CHECK, 0⟩] := by
  constructor
  · norm_num
  · norm_num [enumerate_actions, cfgNoRaises]

/-- C3 (amended).  An ALLIN action is enumerated iff the state is not the
all-in auto-close branch (`is_all_in` with `to_call < ε`), the raise budget is
not exhausted (`raise_count < max_raises`), and the acting player's stack
exceeds `to_call + 1`. -/
theorem allin_enumerated_iff (cfg : BettingConfig) (oop_stack ip_stack pot : ℚ) (player : ℕ)
    (street : Street) (raise_count : ℕ) (current_bet actor_invested : ℚ) (is_all_in : Bool) :
    (∃ a ∈ enumerate_actions cfg oop_stack ip_stack pot player street raise_count
        current_bet actor_invested is_all_in, a.type = ActionType.ALLIN) ↔
      ¬(is_all_in = true ∧ current_bet - actor_invested < 0.01) ∧
      raise_count < cfg.max_raises ∧
      (if player = 0 then oop_stack else ip_stack) > (current_bet - actor_invested) + 1 := by
  simp only [enumerate_actions]
  by_cases hpend : is_all_in = true ∧ current_bet - actor_invested < 0.01
  · rw [if_pos hpend]
    constructor
    · rintro ⟨a, ha, hty⟩
      revert ha
      split <;> intro ha <;> simp_all
    · rintro ⟨hne, -⟩
      exact absurd hpend hne
  · rw [if_neg hpend]
    constructor
    · rintro ⟨a, ha, hty⟩
      rcases List.mem_append.mp ha with hAB | hC
      · rcases List.mem_append.mp hAB with hA | hB
        · revert hA; split <;> intro hA
          · rw [List.mem_singleton] at hA; subst hA
            exact absurd hty (fun h => ActionType.noConfusion h)
          · exact absurd hA (List.not_mem_nil a)
        · revert hB; split <;> intro hB <;> rw [List.mem_singleton] at hB <;> subst hB <;>
            exact absurd hty (fun h => ActionType.noConfusion h)
      · by_cases hguard : raise_count < cfg.max_raises ∧
            (if player = 0 then oop_stack else ip_stack) > current_bet - actor_invested + 0.01
        case neg => rw [if_neg hguard] at hC; exact absurd hC (List.not_mem_nil a)
        case pos =>
            rw [if_pos hguard] at hC
            rcases List.mem_append.mp hC with hbets | hallin
            · exfalso
              obtain ⟨s, hs, hsome⟩ := List.mem_filterMap.mp hbets
              obtain rfl := ite_none_some hsome
              by_cases hbet : current_bet - actor_invested < (0.01 : ℚ)
              · simp only [if_pos hbet] at hty
                exact absurd hty (fun h => ActionType.noConfusion h)
              · simp only [if_neg hbet] at hty
                exact absurd hty (fun h => ActionType.noConfusion h)
            · by_cases hcond :
                  (if player = 0 then oop_stack else ip_stack) > current_bet - actor_invested + 1
              case neg => rw [if_neg hcond] at hallin; exact absurd hallin (List.not_mem_nil a)
              case pos => exact ⟨hpend, hguard.1, hcond⟩
    · rintro ⟨-, hrc, hstk⟩
      have hb : (0.01 : ℚ) < 1 := by norm_num
      refine ⟨⟨ActionType.ALLIN, if player = 0 then oop_stack else ip_stack⟩, ?_, rfl⟩
      apply List.mem_append.mpr; right
      rw [if_pos ⟨hrc, by linarith⟩]
      apply List.mem_append.mpr; right
      rw [if_pos hstk]
      exact List.mem_singleton.mpr rfl

lemma equity_pair_sum (r1 r2 : ℕ) (pot a b : ℚ) :
    ((if r1 > r2 then (1 : ℚ) else if r1 < r2 then 0 else 0.5) * pot - a) +
      ((if r2 > r1 then (1 : ℚ) else if r2 < r1 then 0 else 0.5) * pot - b) =
      pot - (a + b) := by
  rcases Nat.lt_trichotomy r1 r2 with h | h | h
  · rw [if_neg (by omega), if_pos h, if_pos h]; ring
  · subst h
    rw [if_neg (by omega), if_neg (by omega)]
    ring
  · rw [if_pos h, if_neg (by omega), if_pos h]; ring

/-- C2 (amended).  At a river showdown terminal with exact equity, the two
traverser EVs sum to `node.pot` minus both players' contributions since the
root (equivalently, the pot already present at the root): they sum to 0 only
in the degenerate case where that quantity is 0, not in general. -/
theorem terminal_ev_river_pair_sum (eng : CppCFREngine)
    (mc_equity : Combo → Combo → List ℕ → ℕ → ℚ) (node : CppNode) (i j : ℕ)
    (hpot : ¬ node.pot < 0.01) (hlen : node.board_len = 5)
    (hconf : cards_conflict (eng.oop_combos.getD i default).cards0
      (eng.oop_combos.getD i default).cards1 (eng.ip_combos.getD j default).cards0
      (eng.ip_combos.getD j default).cards1 = false) :
    terminal_ev eng mc_equity node 0 i j + terminal_ev eng mc_equity node 1 j i =
      node.pot - (((eng.pool.nodes.getD eng.root_id default).stacks0 - node.stacks0) +
        ((eng.pool.nodes.getD eng.root_id default).stacks1 - node.stacks1)) := by
  have hz : ((0 : ℤ) = 0) = True := by simp
  have ho : ((1 : ℤ) = 0) = False := by simp
  simp only [terminal_ev, CppNode.stack, if_neg hpot, hlen, min_self, hz, ho, if_true,
    if_false]
  exact equity_pair_sum _ _ _ _ _

/-- C2 counterexample: on the checked-down river fixture (root pot 100, equal
stacks, AA vs KK), the two traverser EVs sum to 100, not 0, although the pot
is above the ε-threshold, the board has 5 cards and the combos do not
conflict. -/
theorem terminal_ev_zero_sum_cex :
    ¬ riverNode.pot < 0.01 ∧ riverNode.board_len = 5 ∧
    cards_conflict 48 49 44 45 = false ∧
    terminal_ev riverEngine mc_equity_const riverNode 0 0 0 +
      terminal_ev riverEngine mc_equity_const riverNode 1 0 0 = 100 ∧
    (100 : ℚ) ≠ 0 := by
  have h1 : evaluate 48 49 [0, 5, 14, 31, 38] 5 = 550073088 := by decide
  have h2 : evaluate 44 45 [0, 5, 14, 31, 38] 5 = 549024512 := by decide
  refine ⟨by norm_num [riverNode], rfl, by decide, ?_, by norm_num⟩
  norm_num [terminal_ev, riverEngine, riverNode, mc_equity_const, CppNode.stack, h1, h2]

/-- Witness for C2 (amended) on the river fixture. -/
theorem terminal_ev_river_pair_sum_witness :
    (¬ riverNode.pot < 0.01) ∧ riverNode.board_len = 5 ∧
    cards_conflict (riverEngine.oop_combos.getD 0 default).cards0
      (riverEngine.oop_combos.getD 0 default).cards1
      (riverEngine.ip_combos.getD 0 default).cards0
      (riverEngine.ip_combos.getD 0 default).cards1 = false ∧
    terminal_ev riverEngine mc_equity_const riverNode 0 0 0 +
      terminal_ev riverEngine mc_equity_const riverNode 1 0 0 =
      riverNode.pot - (((riverEngine.pool.nodes.getD riverEngine.root_id default).stacks0 -
        riverNode.stacks0) +
        ((riverEngine.pool.nodes.getD riverEngine.root_id default).stacks1 -
        riverNode.stacks1)) :=
  ⟨by norm_num [riverNode], rfl, by decide,
    terminal_ev_river_pair_sum riverEngine mc_equity_const riverNode 0 0
      (by norm_num [riverNode]) rfl (by decide)⟩

end PokerSpec
